import Mathlib

/-!
Shallow embedding of the multisig configuration core:
  * src/programs/multisig/src/instructions/multisig_config.rs
  * src/programs/squads_multisig_program/src/instructions/program_config.rs

Identities (Solana `Pubkey`) are modelled as `Nat`.  Machine integers are
`Nat` with explicit `% 2 ^ w` where overflow matters (the `u8` vault index
increment).  Fallible instruction handlers return `Except MultisigError σ`
where `σ` is the post state; an `Except.error` result means the handler
aborted and the account state is untouched (all-or-nothing commit), so
"record unchanged" claims are captured by the handler returning an error
and producing no new record at all.

The state module of the repository (`Multisig` struct with `invariant`,
`add_member`, `remove_member`, `config_updated`, `realloc_if_needed`, and
the error enum) is not among the provided source files; those parts are
modelled from the spec and marked `Modelled from the spec:` below.  The
instruction handlers themselves are translated line by line from the
source files above.
-/

/-- Error kinds of the configuration core.  The source instruction files
reference `Unauthorized`, `MissingAccount`, `RemoveLastMember` and
`InvalidVaultIndex`; the remaining kinds (`MemberNotFound`,
`InvalidInvariant` for the invariant checker, and `MissingAuthority`,
named by the spec but produced by no operation of this core) are modelled
from the spec error list in section 7. -/
inductive MultisigError where
  | Unauthorized
  | MissingAccount
  | RemoveLastMember
  | MemberNotFound
  | InvalidVaultIndex
  | InvalidInvariant
  | MissingAuthority
  deriving Repr, DecidableEq

/-- A multisig member: identity plus capability flags (the flags are
opaque to this core). -/
structure Member where
  key : Nat
  permissions : Nat
  deriving Repr, DecidableEq

/-- Modelled from the spec: the Authorization Record ("Multisig") state
owned by the configuration core (state module not among the provided
sources).  Fields mirror the spec data model and the field accesses of the
instruction handlers: `config_authority` (a plain identity; the handlers
compare it directly with the signer key), `threshold` (u16), `time_lock`
(u32), `vault_index` (u8), `members`, and the last-config-change marker. -/
structure Multisig where
  config_authority : Nat
  threshold : Nat
  time_lock : Nat
  vault_index : Nat
  members : List Member
  last_config_change_marker : Nat
  deriving Repr, DecidableEq

/-- `true` when no two members share an identity. -/
def keysUnique : List Member → Bool
  | [] => true
  | x :: xs => (!xs.any (fun y => y.key == x.key)) && keysUnique xs

/-- Modelled from the spec: the invariant checker (section 4.1; the body
lives in the missing state module).  Fails with `InvalidInvariant` if the
threshold is zero, exceeds the member count, member identities are not
unique, or the member count exceeds the maximum representable by the
16-bit size field. -/
def Multisig.invariant (m : Multisig) : Except MultisigError Unit :=
  if m.threshold = 0 then .error .InvalidInvariant
  else if m.members.length < m.threshold then .error .InvalidInvariant
  else if ¬ keysUnique m.members then .error .InvalidInvariant
  else if 65535 < m.members.length then .error .InvalidInvariant
  else .ok ()

/-- Modelled from the spec: Change Notification (section 2 and the data
model): the last-config-change marker is a monotonically-advancing counter
updated on every successful configuration mutation. -/
def Multisig.config_updated (m : Multisig) : Multisig :=
  { m with last_config_change_marker := m.last_config_change_marker + 1 }

/-- Modelled from the spec: the capacity test of the Dynamic Record
Resizer (section 4.3): growth is performed exactly when the current
physical capacity (measured in member slots here) is insufficient for the
target member count.  The resizer mutates only physical storage, never the
logical record fields. -/
def reallocIfNeeded (capacity targetLen : Nat) : Bool :=
  decide (capacity < targetLen)

/-- Modelled from the spec: `Multisig.add_member` appends the new member
(section 4.4, "Appends the member"). -/
def Multisig.add_member (m : Multisig) (newMember : Member) : Multisig :=
  { m with members := m.members ++ [newMember] }

/-- Modelled from the spec: `Multisig.remove_member` fails with
`MemberNotFound` if the identity is absent, and otherwise removes the
member with that identity. -/
def Multisig.remove_member (m : Multisig) (oldKey : Nat) :
    Except MultisigError Multisig :=
  if m.members.any (fun mem => mem.key == oldKey) then
    .ok { m with members := m.members.filter (fun mem => mem.key != oldKey) }
  else .error .MemberNotFound

/-- `MultisigConfig::validate`: the caller (signer) key must equal the
record `config_authority`, else `Unauthorized`.  Run before every handler
body via `#[access_control]`. -/
def MultisigConfig.validate (caller : Nat) (m : Multisig) :
    Except MultisigError Unit :=
  if caller = m.config_authority then .ok () else .error .Unauthorized

/-- `multisig_add_member`: after the access-control gate, the handler
unconditionally requires the system program and the rent payer accounts
(each absence fails `MissingAccount`), runs the resizer for
`members.len() + 1`, appends the member, checks the invariant and bumps
the change marker. -/
def multisig_add_member (caller : Nat) (systemProgramPresent : Bool)
    (rentPayer : Option Nat) (capacity : Nat) (m : Multisig)
    (newMember : Member) : Except MultisigError Multisig :=
  match MultisigConfig.validate caller m with
  | .error e => .error e
  | .ok _ =>
    if systemProgramPresent then
      match rentPayer with
      | none => .error .MissingAccount
      | some _ =>
        let _reallocated := reallocIfNeeded capacity (m.members.length + 1)
        let m1 := m.add_member newMember
        match m1.invariant with
        | .error e => .error e
        | .ok _ => .ok m1.config_updated
    else .error .MissingAccount

/-- The post-removal threshold update of `multisig_remove_member`: if the
threshold exceeds the member count it is set to the member count (the
`try_into` of the source cannot fail on this path, because on it
`members.len() < threshold <= u16 MAX`). -/
def clampThreshold (m : Multisig) : Multisig :=
  if m.members.length < m.threshold then
    { m with threshold := m.members.length }
  else m

/-- `multisig_remove_member`: gate, then `RemoveLastMember` unless more
than one member, then removal (`MemberNotFound` if absent), then the
threshold is clamped down to the new member count if it exceeds it, then
invariant and change marker. -/
def multisig_remove_member (caller : Nat) (m : Multisig) (oldKey : Nat) :
    Except MultisigError Multisig :=
  match MultisigConfig.validate caller m with
  | .error e => .error e
  | .ok _ =>
    if 1 < m.members.length then
      match m.remove_member oldKey with
      | .error e => .error e
      | .ok m1 =>
        match (clampThreshold m1).invariant with
        | .error e => .error e
        | .ok _ => .ok (clampThreshold m1).config_updated
    else .error .RemoveLastMember

/-- `multisig_change_threshold`: gate, set the threshold directly,
invariant, change marker. -/
def multisig_change_threshold (caller : Nat) (m : Multisig)
    (newThreshold : Nat) : Except MultisigError Multisig :=
  match MultisigConfig.validate caller m with
  | .error e => .error e
  | .ok _ =>
    let m1 := { m with threshold := newThreshold }
    match m1.invariant with
    | .error e => .error e
    | .ok _ => .ok m1.config_updated

/-- `multisig_set_time_lock`: gate, set the time lock, invariant, change
marker. -/
def multisig_set_time_lock (caller : Nat) (m : Multisig) (timeLock : Nat) :
    Except MultisigError Multisig :=
  match MultisigConfig.validate caller m with
  | .error e => .error e
  | .ok _ =>
    let m1 := { m with time_lock := timeLock }
    match m1.invariant with
    | .error e => .error e
    | .ok _ => .ok m1.config_updated

/-- `multisig_set_config_authority`: gate, set the config authority,
invariant, change marker. -/
def multisig_set_config_authority (caller : Nat) (m : Multisig)
    (newAuthority : Nat) : Except MultisigError Multisig :=
  match MultisigConfig.validate caller m with
  | .error e => .error e
  | .ok _ =>
    let m1 := { m with config_authority := newAuthority }
    match m1.invariant with
    | .error e => .error e
    | .ok _ => .ok m1.config_updated

/-- `multisig_add_vault`: gate, then require the supplied index to equal
`vault_index + 1` computed in 8-bit arithmetic (wraparound semantics:
explicit `% 256`), set the index, check the invariant.  The handler does
NOT bump the change marker (source comment: this is just a UI feature). -/
def multisig_add_vault (caller : Nat) (m : Multisig) (vaultIdx : Nat) :
    Except MultisigError Multisig :=
  match MultisigConfig.validate caller m with
  | .error e => .error e
  | .ok _ =>
    if vaultIdx = (m.vault_index + 1) % 256 then
      let m1 := { m with vault_index := vaultIdx }
      match m1.invariant with
      | .error e => .error e
      | .ok _ => .ok m1
    else .error .InvalidVaultIndex

/-- Checked-arithmetic variant of the `u8` increment: `none` on overflow
(the behaviour of `vault_index + 1` when the build traps on overflow, in
which case the instruction aborts abnormally rather than returning). -/
def checkedAddU8 (a b : Nat) : Option Nat :=
  if a + b ≤ 255 then some (a + b) else none

/-- `multisig_add_vault` under checked (trapping) 8-bit arithmetic: the
outer `none` models the arithmetic trap, from which no normal completion
(success or typed error) is produced. -/
def multisig_add_vault_checked (caller : Nat) (m : Multisig)
    (vaultIdx : Nat) : Option (Except MultisigError Multisig) :=
  match MultisigConfig.validate caller m with
  | .error e => some (.error e)
  | .ok _ =>
    match checkedAddU8 m.vault_index 1 with
    | none => none
    | some nxt =>
      if vaultIdx = nxt then
        let m1 := { m with vault_index := vaultIdx }
        match m1.invariant with
        | .error e => some (.error e)
        | .ok _ => some (.ok m1)
      else some (.error .InvalidVaultIndex)

/-- The Global Configuration Record ("ProgramConfig"): singleton with an
authority, the multisig creation fee (u64) and the treasury identity. -/
structure ProgramConfigState where
  authority : Nat
  multisig_creation_fee : Nat
  treasury : Nat
  deriving Repr, DecidableEq

/-- `ProgramConfig::validate`: the record authority must equal the signer
key, else `Unauthorized`. -/
def ProgramConfig.validate (pc : ProgramConfigState) (caller : Nat) :
    Except MultisigError Unit :=
  if pc.authority = caller then .ok () else .error .Unauthorized

/-- `program_config_set_authority`: gate, then overwrite `authority`. -/
def program_config_set_authority (pc : ProgramConfigState) (caller : Nat)
    (newAuthority : Nat) : Except MultisigError ProgramConfigState :=
  match ProgramConfig.validate pc caller with
  | .error e => .error e
  | .ok _ => .ok { pc with authority := newAuthority }

/-- `program_config_set_multisig_creation_fee`: gate, then overwrite the
fee. -/
def program_config_set_multisig_creation_fee (pc : ProgramConfigState)
    (caller : Nat) (newFee : Nat) : Except MultisigError ProgramConfigState :=
  match ProgramConfig.validate pc caller with
  | .error e => .error e
  | .ok _ => .ok { pc with multisig_creation_fee := newFee }

/-- `program_config_set_treasury`: gate, then overwrite `treasury`. -/
def program_config_set_treasury (pc : ProgramConfigState) (caller : Nat)
    (newTreasury : Nat) : Except MultisigError ProgramConfigState :=
  match ProgramConfig.validate pc caller with
  | .error e => .error e
  | .ok _ => .ok { pc with treasury := newTreasury }

/-! ## Helper lemmas -/

/-- A record passing the invariant checker has `1 <= threshold <= members.length`. -/
lemma invariant_ok_bounds (m : Multisig) (u : Unit) (h : m.invariant = .ok u) :
    1 ≤ m.threshold ∧ m.threshold ≤ m.members.length := by
  unfold Multisig.invariant at h
  split at h
  · simp at h
  · split at h
    · simp at h
    · split at h
      · simp at h
      · split at h
        · simp at h
        · omega

/-- The invariant checker never reads the vault index. -/
lemma invariant_vault_index (m : Multisig) (v : Nat) :
    ({ m with vault_index := v } : Multisig).invariant = m.invariant := rfl

/-- Passing the access-control gate means the caller is the config authority. -/
lemma validate_ok (caller : Nat) (m : Multisig) (u : Unit)
    (h : MultisigConfig.validate caller m = .ok u) :
    caller = m.config_authority := by
  by_cases hc : caller = m.config_authority
  · exact hc
  · simp [MultisigConfig.validate, hc] at h

/-- A caller different from the config authority fails the gate with
`Unauthorized`. -/
lemma gate_error (caller : Nat) (m : Multisig) (h : caller ≠ m.config_authority) :
    MultisigConfig.validate caller m = .error .Unauthorized := by
  simp [MultisigConfig.validate, h]

/-- Successful `Multisig.remove_member` only filters the member list. -/
lemma remove_member_ok (m m1 : Multisig) (oldKey : Nat)
    (h : m.remove_member oldKey = .ok m1) :
    m1 = { m with members := m.members.filter (fun mem => mem.key != oldKey) } := by
  unfold Multisig.remove_member at h
  split at h
  · exact (Except.ok.injEq _ _).mp h.symm
  · simp at h

/-- Inversion of a successful `multisig_add_member`. -/
lemma add_member_ok (caller : Nat) (sp : Bool) (rp : Option Nat) (cap : Nat)
    (m : Multisig) (nm : Member) (m' : Multisig)
    (h : multisig_add_member caller sp rp cap m nm = .ok m') :
    caller = m.config_authority ∧ (m.add_member nm).invariant = .ok () ∧
      m' = (m.add_member nm).config_updated := by
  unfold multisig_add_member at h
  dsimp only [] at h
  split at h
  · simp at h
  · next u heq =>
    refine ⟨validate_ok caller m u heq, ?_⟩
    split at h
    · split at h
      · simp at h
      · split at h
        · simp at h
        · next u2 heq2 =>
          cases u2
          refine ⟨heq2, ?_⟩
          first
          | exact h.symm
          | exact ((Except.ok.injEq _ _).mp h).symm
    · simp at h

/-- Inversion of a successful `multisig_remove_member`. -/
lemma remove_member_handler_ok (caller : Nat) (m : Multisig) (oldKey : Nat)
    (m' : Multisig) (h : multisig_remove_member caller m oldKey = .ok m') :
    caller = m.config_authority ∧ 1 < m.members.length ∧
      ∃ m1, m.remove_member oldKey = .ok m1 ∧
        (clampThreshold m1).invariant = .ok () ∧
        m' = (clampThreshold m1).config_updated := by
  unfold multisig_remove_member at h
  split at h
  · simp at h
  · next u heq =>
    refine ⟨validate_ok caller m u heq, ?_⟩
    split at h
    · next hlen =>
      refine ⟨hlen, ?_⟩
      split at h
      · simp at h
      · next m1 heq1 =>
        refine ⟨m1, heq1, ?_⟩
        split at h
        · simp at h
        · next u2 heq2 =>
          cases u2
          exact ⟨heq2, ((Except.ok.injEq _ _).mp h).symm⟩
    · simp at h

/-- Inversion of a successful `multisig_change_threshold`. -/
lemma change_threshold_ok (caller : Nat) (m : Multisig) (nt : Nat)
    (m' : Multisig) (h : multisig_change_threshold caller m nt = .ok m') :
    caller = m.config_authority ∧
      ({ m with threshold := nt } : Multisig).invariant = .ok () ∧
      m' = ({ m with threshold := nt } : Multisig).config_updated := by
  unfold multisig_change_threshold at h
  dsimp only [] at h
  split at h
  · simp at h
  · next u heq =>
    refine ⟨validate_ok caller m u heq, ?_⟩
    split at h
    · simp at h
    · next u2 heq2 =>
      cases u2
      exact ⟨heq2, ((Except.ok.injEq _ _).mp h).symm⟩

/-- Inversion of a successful `multisig_set_time_lock`. -/
lemma set_time_lock_ok (caller : Nat) (m : Multisig) (tlk : Nat)
    (m' : Multisig) (h : multisig_set_time_lock caller m tlk = .ok m') :
    caller = m.config_authority ∧
      ({ m with time_lock := tlk } : Multisig).invariant = .ok () ∧
      m' = ({ m with time_lock := tlk } : Multisig).config_updated := by
  unfold multisig_set_time_lock at h
  dsimp only [] at h
  split at h
  · simp at h
  · next u heq =>
    refine ⟨validate_ok caller m u heq, ?_⟩
    split at h
    · simp at h
    · next u2 heq2 =>
      cases u2
      exact ⟨heq2, ((Except.ok.injEq _ _).mp h).symm⟩

/-- Inversion of a successful `multisig_set_config_authority`. -/
lemma set_config_authority_ok (caller : Nat) (m : Multisig) (na : Nat)
    (m' : Multisig) (h : multisig_set_config_authority caller m na = .ok m') :
    caller = m.config_authority ∧
      ({ m with config_authority := na } : Multisig).invariant = .ok () ∧
      m' = ({ m with config_authority := na } : Multisig).config_updated := by
  unfold multisig_set_config_authority at h
  dsimp only [] at h
  split at h
  · simp at h
  · next u heq =>
    refine ⟨validate_ok caller m u heq, ?_⟩
    split at h
    · simp at h
    · next u2 heq2 =>
      cases u2
      exact ⟨heq2, ((Except.ok.injEq _ _).mp h).symm⟩

/-- Inversion of a successful `multisig_add_vault`. -/
lemma add_vault_ok (caller : Nat) (m : Multisig) (vi : Nat)
    (m' : Multisig) (h : multisig_add_vault caller m vi = .ok m') :
    caller = m.config_authority ∧ vi = (m.vault_index + 1) % 256 ∧
      ({ m with vault_index := vi } : Multisig).invariant = .ok () ∧
      m' = { m with vault_index := vi } := by
  unfold multisig_add_vault at h
  dsimp only [] at h
  split at h
  · simp at h
  · next u heq =>
    refine ⟨validate_ok caller m u heq, ?_⟩
    split at h
    · next hvi =>
      refine ⟨hvi, ?_⟩
      split at h
      · simp at h
      · next u2 heq2 =>
        cases u2
        exact ⟨heq2, ((Except.ok.injEq _ _).mp h).symm⟩
    · simp at h

/-- Every one of the six configuration handlers rejects a caller that is
not the config authority with `Unauthorized`. -/
lemma ops_unauthorized (m : Multisig) (caller cap nt tlk na vi oldKey : Nat)
    (sp : Bool) (rp : Option Nat) (nm : Member)
    (h : caller ≠ m.config_authority) :
    multisig_add_member caller sp rp cap m nm = .error .Unauthorized ∧
    multisig_remove_member caller m oldKey = .error .Unauthorized ∧
    multisig_change_threshold caller m nt = .error .Unauthorized ∧
    multisig_set_time_lock caller m tlk = .error .Unauthorized ∧
    multisig_set_config_authority caller m na = .error .Unauthorized ∧
    multisig_add_vault caller m vi = .error .Unauthorized := by
  have hv := gate_error caller m h
  refine ⟨?_, ?_, ?_, ?_, ?_, ?_⟩ <;>
    simp [multisig_add_member, multisig_remove_member,
      multisig_change_threshold, multisig_set_time_lock,
      multisig_set_config_authority, multisig_add_vault, hv]

/-! ## Sample records used by witnesses and counterexamples -/

/-- Controlled record: authority 5, members A=1 B=2 C=3, threshold 2. -/
def msA : Multisig := ⟨5, 2, 0, 3, [⟨1, 7⟩, ⟨2, 7⟩, ⟨3, 7⟩], 10⟩

/-- Controlled record whose vault index sits at the u8 maximum. -/
def ms255 : Multisig := ⟨5, 1, 0, 255, [⟨1, 7⟩], 0⟩

/-- Controlled record with exactly one member. -/
def msOne : Multisig := ⟨5, 1, 0, 0, [⟨1, 7⟩], 0⟩

/-- Record whose config authority is unset (the zero identity). -/
def msUnset : Multisig := ⟨0, 1, 0, 0, [⟨1, 7⟩], 0⟩

/-! ## Claims -/

/-- C1: for every Authorization Record and every one of the six multisig
configuration operations, if the operation returns success then the
resulting record satisfies `1 <= threshold <= members.length`. -/
theorem c1_threshold_invariant_after_success
    (m m' : Multisig) (caller cap nt tlk na vi oldKey : Nat)
    (sp : Bool) (rp : Option Nat) (nm : Member)
    (h : multisig_add_member caller sp rp cap m nm = .ok m'
       ∨ multisig_remove_member caller m oldKey = .ok m'
       ∨ multisig_change_threshold caller m nt = .ok m'
       ∨ multisig_set_time_lock caller m tlk = .ok m'
       ∨ multisig_set_config_authority caller m na = .ok m'
       ∨ multisig_add_vault caller m vi = .ok m') :
    1 ≤ m'.threshold ∧ m'.threshold ≤ m'.members.length := by
  rcases h with h | h | h | h | h | h
  · obtain ⟨-, hinv, hm'⟩ := add_member_ok caller sp rp cap m nm m' h
    subst hm'
    exact invariant_ok_bounds _ () hinv
  · obtain ⟨-, -, m1, -, hinv, hm'⟩ := remove_member_handler_ok caller m oldKey m' h
    subst hm'
    exact invariant_ok_bounds _ () hinv
  · obtain ⟨-, hinv, hm'⟩ := change_threshold_ok caller m nt m' h
    subst hm'
    exact invariant_ok_bounds _ () hinv
  · obtain ⟨-, hinv, hm'⟩ := set_time_lock_ok caller m tlk m' h
    subst hm'
    exact invariant_ok_bounds _ () hinv
  · obtain ⟨-, hinv, hm'⟩ := set_config_authority_ok caller m na m' h
    subst hm'
    exact invariant_ok_bounds _ () hinv
  · obtain ⟨-, -, hinv, hm'⟩ := add_vault_ok caller m vi m' h
    subst hm'
    exact invariant_ok_bounds _ () hinv

/-- C1 witness: a concrete successful threshold change on `msA`. -/
theorem c1_witness :
    1 ≤ (Multisig.mk 5 3 0 3 [⟨1, 7⟩, ⟨2, 7⟩, ⟨3, 7⟩] 11).threshold ∧
    (Multisig.mk 5 3 0 3 [⟨1, 7⟩, ⟨2, 7⟩, ⟨3, 7⟩] 11).threshold ≤
      (Multisig.mk 5 3 0 3 [⟨1, 7⟩, ⟨2, 7⟩, ⟨3, 7⟩] 11).members.length :=
  c1_threshold_invariant_after_success msA
    (Multisig.mk 5 3 0 3 [⟨1, 7⟩, ⟨2, 7⟩, ⟨3, 7⟩] 11)
    5 0 3 0 0 0 0 true none ⟨0, 0⟩ (Or.inr (Or.inr (Or.inl rfl)))

/-- C2: every multisig configuration operation invoked by a caller whose
identity differs from the record `config_authority` fails with
`Unauthorized`; since the handlers are all-or-nothing, the record is left
completely unchanged (no post state is produced at all). -/
theorem c2_unauthorized_rejected_unchanged
    (m : Multisig) (caller cap nt tlk na vi oldKey : Nat)
    (sp : Bool) (rp : Option Nat) (nm : Member)
    (h : caller ≠ m.config_authority) :
    multisig_add_member caller sp rp cap m nm = .error .Unauthorized ∧
    multisig_remove_member caller m oldKey = .error .Unauthorized ∧
    multisig_change_threshold caller m nt = .error .Unauthorized ∧
    multisig_set_time_lock caller m tlk = .error .Unauthorized ∧
    multisig_set_config_authority caller m na = .error .Unauthorized ∧
    multisig_add_vault caller m vi = .error .Unauthorized :=
  ops_unauthorized m caller cap nt tlk na vi oldKey sp rp nm h

/-- C2 witness: caller 9 is rejected on the concrete record `msA`. -/
theorem c2_witness :
    multisig_change_threshold 9 msA 3 = .error .Unauthorized ∧
    multisig_add_vault 9 msA 4 = .error .Unauthorized :=
  ⟨(c2_unauthorized_rejected_unchanged msA 9 0 3 0 0 4 0 true none ⟨0, 0⟩
      (by decide)).2.2.1,
   (c2_unauthorized_rejected_unchanged msA 9 0 3 0 0 4 0 true none ⟨0, 0⟩
      (by decide)).2.2.2.2.2⟩

/-- C3: on every successful member removal, if the pre-removal threshold
exceeds the post-removal member count the threshold becomes that count,
otherwise it is unchanged; it never increases. -/
theorem c3_remove_member_clamps_threshold
    (m m' : Multisig) (caller oldKey : Nat)
    (h : multisig_remove_member caller m oldKey = .ok m') :
    (m'.members.length < m.threshold → m'.threshold = m'.members.length) ∧
    (m.threshold ≤ m'.members.length → m'.threshold = m.threshold) ∧
    m'.threshold ≤ m.threshold := by
  obtain ⟨-, -, m1, hrem, -, hm'⟩ := remove_member_handler_ok caller m oldKey m' h
  have h1 := remove_member_ok m m1 oldKey hrem
  subst h1
  subst hm'
  dsimp only [clampThreshold, Multisig.config_updated]
  split_ifs with hc <;>
    refine ⟨fun hlt => ?_, fun hle => ?_, ?_⟩ <;> dsimp at * <;> omega

/-- C3 witness: removing B from `msA` keeps the threshold at 2; removing C
from the result clamps the threshold from 2 down to 1. -/
theorem c3_witness :
    (Multisig.mk 5 2 0 3 [⟨1, 7⟩, ⟨3, 7⟩] 11).threshold = msA.threshold ∧
    (Multisig.mk 5 1 0 3 [⟨1, 7⟩] 12).threshold =
      (Multisig.mk 5 1 0 3 [⟨1, 7⟩] 12).members.length :=
  ⟨(c3_remove_member_clamps_threshold msA
      (Multisig.mk 5 2 0 3 [⟨1, 7⟩, ⟨3, 7⟩] 11) 5 2 rfl).2.1 (by decide),
   (c3_remove_member_clamps_threshold (Multisig.mk 5 2 0 3 [⟨1, 7⟩, ⟨3, 7⟩] 11)
      (Multisig.mk 5 1 0 3 [⟨1, 7⟩] 12) 5 3 rfl).1 (by decide)⟩

/-- C4 counterexample: at `vault_index = 255` the 8-bit increment wraps,
so the handler accepts the argument 0 and succeeds even though 0 is not
`vault_index + 1` — refuting the claimed iff at this record. -/
theorem c4_counterexample :
    multisig_add_vault 5 ms255 0 = .ok (Multisig.mk 5 1 0 0 [⟨1, 7⟩] 0) ∧
    (0 : Nat) ≠ ms255.vault_index + 1 :=
  ⟨rfl, by decide⟩

/-- C4 (amended): for an authorized caller on a well-formed record whose
vault index is below 255 (so the 8-bit increment does not wrap), Add Vault
succeeds and sets `vault_index` to the supplied `v` exactly when `v`
equals `vault_index + 1`; any other argument (a repeated stale value, a
skipping value) fails with `InvalidVaultIndex`, leaving the record
unchanged. -/
theorem c4_amended_strict_sequencing (m : Multisig) (caller v : Nat)
    (hAuth : caller = m.config_authority) (hWf : m.invariant = .ok ())
    (hLt : m.vault_index < 255) :
    (multisig_add_vault caller m v = .ok { m with vault_index := v } ↔
      v = m.vault_index + 1) ∧
    (v ≠ m.vault_index + 1 →
      multisig_add_vault caller m v = .error .InvalidVaultIndex) := by
  have hmod : (m.vault_index + 1) % 256 = m.vault_index + 1 :=
    Nat.mod_eq_of_lt (by omega)
  have hvalid : MultisigConfig.validate caller m = .ok () := by
    simp [MultisigConfig.validate, hAuth]
  constructor
  · constructor
    · intro h
      obtain ⟨-, hv, -, -⟩ := add_vault_ok caller m v _ h
      omega
    · intro hv
      subst hv
      simp [multisig_add_vault, hvalid, hmod, invariant_vault_index, hWf]
  · intro hv
    simp [multisig_add_vault, hvalid, hmod, hv]

/-- C4 witness: on `msA` (vault index 3) the argument 4 succeeds and the
stale argument 3 fails with `InvalidVaultIndex`. -/
theorem c4_witness :
    multisig_add_vault 5 msA 4 =
      .ok (Multisig.mk 5 2 0 4 [⟨1, 7⟩, ⟨2, 7⟩, ⟨3, 7⟩] 10) ∧
    multisig_add_vault 5 msA 3 = .error .InvalidVaultIndex :=
  ⟨(c4_amended_strict_sequencing msA 5 4 rfl rfl (by decide)).1.mpr rfl,
   (c4_amended_strict_sequencing msA 5 3 rfl rfl (by decide)).2 (by decide)⟩

/-- C5 counterexample: on a record whose config authority is unset (the
zero identity) a direct configuration operation fails with `Unauthorized`,
not with the claimed `MissingAuthority`. -/
theorem c5_counterexample :
    multisig_set_time_lock 7 msUnset 99 = .error .Unauthorized ∧
    MultisigError.Unauthorized ≠ MultisigError.MissingAuthority :=
  ⟨rfl, by decide⟩

/-- C5 (amended): the gate is a plain equality check against
`config_authority`, so on a record whose config authority is unset (zero)
every direct configuration operation invoked by a caller other than the
zero identity fails with `Unauthorized`; no `MissingAuthority` error is
produced by this core. -/
theorem c5_amended_uncontrolled_rejects
    (m : Multisig) (caller cap nt tlk na vi oldKey : Nat)
    (sp : Bool) (rp : Option Nat) (nm : Member)
    (hZero : m.config_authority = 0) (hCaller : caller ≠ 0) :
    multisig_add_member caller sp rp cap m nm = .error .Unauthorized ∧
    multisig_remove_member caller m oldKey = .error .Unauthorized ∧
    multisig_change_threshold caller m nt = .error .Unauthorized ∧
    multisig_set_time_lock caller m tlk = .error .Unauthorized ∧
    multisig_set_config_authority caller m na = .error .Unauthorized ∧
    multisig_add_vault caller m vi = .error .Unauthorized :=
  ops_unauthorized m caller cap nt tlk na vi oldKey sp rp nm
    (by rw [hZero]; exact hCaller)

/-- C5 witness: caller 7 is rejected with `Unauthorized` on the concrete
uncontrolled record `msUnset`. -/
theorem c5_witness :
    multisig_change_threshold 7 msUnset 1 = .error .Unauthorized ∧
    multisig_remove_member 7 msUnset 1 = .error .Unauthorized :=
  ⟨(c5_amended_uncontrolled_rejects msUnset 7 0 1 0 0 0 1 true none ⟨0, 0⟩
      rfl (by decide)).2.2.1,
   (c5_amended_uncontrolled_rejects msUnset 7 0 1 0 0 0 1 true none ⟨0, 0⟩
      rfl (by decide)).2.1⟩

/-- C6 counterexample: with capacity 100 (no growth needed for a fourth
member) and no rent payer supplied, Add Member still fails with
`MissingAccount` — refuting "when current capacity already suffices, the
operation proceeds without those resources". -/
theorem c6_counterexample :
    multisig_add_member 5 true none 100 msA ⟨9, 7⟩ = .error .MissingAccount ∧
    reallocIfNeeded 100 (msA.members.length + 1) = false :=
  ⟨rfl, by decide⟩

/-- C6 (amended): Add Member unconditionally requires both the system
program and the rent payer, failing with the single `MissingAccount` error
if either is absent, regardless of whether storage growth is needed; the
result never depends on the current capacity, and on success the member is
appended. -/
theorem c6_amended_accounts_always_required
    (m : Multisig) (caller cap cap2 : Nat) (nm : Member)
    (sp : Bool) (rp : Option Nat) (hAuth : caller = m.config_authority) :
    ((sp = false ∨ rp = none) →
      multisig_add_member caller sp rp cap m nm = .error .MissingAccount) ∧
    multisig_add_member caller sp rp cap m nm =
      multisig_add_member caller sp rp cap2 m nm ∧
    (∀ m', multisig_add_member caller sp rp cap m nm = .ok m' →
      m'.members = m.members ++ [nm]) := by
  refine ⟨?_, ?_, ?_⟩
  · rintro (hsp | hrp)
    · subst hsp
      simp [multisig_add_member, MultisigConfig.validate, hAuth]
    · subst hrp
      simp [multisig_add_member, MultisigConfig.validate, hAuth]
  · rfl
  · intro m' h
    obtain ⟨-, -, hm'⟩ := add_member_ok caller sp rp cap m nm m' h
    subst hm'
    rfl

/-- C6 witness: a missing rent payer fails `MissingAccount` even with
ample capacity, while with both accounts supplied the member is
appended. -/
theorem c6_witness :
    multisig_add_member 5 true none 0 msA ⟨9, 7⟩ = .error .MissingAccount ∧
    (Multisig.mk 5 2 0 3 [⟨1, 7⟩, ⟨2, 7⟩, ⟨3, 7⟩, ⟨9, 7⟩] 11).members =
      msA.members ++ [⟨9, 7⟩] :=
  ⟨(c6_amended_accounts_always_required msA 5 0 0 ⟨9, 7⟩ true none rfl).1
      (Or.inr rfl),
   (c6_amended_accounts_always_required msA 5 0 0 ⟨9, 7⟩ true (some 1) rfl).2.2
      (Multisig.mk 5 2 0 3 [⟨1, 7⟩, ⟨2, 7⟩, ⟨3, 7⟩, ⟨9, 7⟩] 11) rfl⟩

/-- C7 counterexample: on a one-member record an unauthorized caller is
rejected with `Unauthorized`, not the claimed `RemoveLastMember` — the
access-control gate runs first, so the failure is NOT independent of
caller authorization. -/
theorem c7_counterexample :
    multisig_remove_member 9 msOne 1 = .error .Unauthorized ∧
    MultisigError.Unauthorized ≠ MultisigError.RemoveLastMember :=
  ⟨rfl, by decide⟩

/-- C7 (amended): for an authorized caller, a record with exactly one
member fails `RemoveLastMember` on any removal attempt, for any supplied
identity (present in the record or not); an unauthorized caller is instead
rejected with `Unauthorized` by the gate. -/
theorem c7_amended_remove_last_member
    (m : Multisig) (caller oldKey : Nat)
    (hAuth : caller = m.config_authority) (hOne : m.members.length = 1) :
    multisig_remove_member caller m oldKey = .error .RemoveLastMember := by
  have hvalid : MultisigConfig.validate caller m = .ok () := by
    simp [MultisigConfig.validate, hAuth]
  simp [multisig_remove_member, hvalid, hOne]

/-- C7 witness: removal of an absent identity (2) and of the present
identity (1) both fail `RemoveLastMember` on the one-member record. -/
theorem c7_witness :
    multisig_remove_member 5 msOne 2 = .error .RemoveLastMember ∧
    multisig_remove_member 5 msOne 1 = .error .RemoveLastMember :=
  ⟨c7_amended_remove_last_member msOne 5 2 rfl rfl,
   c7_amended_remove_last_member msOne 5 1 rfl rfl⟩

/-- C8: a successful Add Vault leaves the last-config-change marker
unchanged, whereas every other successful configuration operation advances
it by one step. -/
theorem c8_marker_frame
    (m m' : Multisig) (caller cap nt tlk na vi oldKey : Nat)
    (sp : Bool) (rp : Option Nat) (nm : Member) :
    (multisig_add_vault caller m vi = .ok m' →
      m'.last_config_change_marker = m.last_config_change_marker) ∧
    (multisig_add_member caller sp rp cap m nm = .ok m' →
      m'.last_config_change_marker = m.last_config_change_marker + 1) ∧
    (multisig_remove_member caller m oldKey = .ok m' →
      m'.last_config_change_marker = m.last_config_change_marker + 1) ∧
    (multisig_change_threshold caller m nt = .ok m' →
      m'.last_config_change_marker = m.last_config_change_marker + 1) ∧
    (multisig_set_time_lock caller m tlk = .ok m' →
      m'.last_config_change_marker = m.last_config_change_marker + 1) ∧
    (multisig_set_config_authority caller m na = .ok m' →
      m'.last_config_change_marker = m.last_config_change_marker + 1) := by
  refine ⟨?_, ?_, ?_, ?_, ?_, ?_⟩ <;> intro h
  · obtain ⟨-, -, -, hm'⟩ := add_vault_ok caller m vi m' h
    subst hm'
    rfl
  · obtain ⟨-, -, hm'⟩ := add_member_ok caller sp rp cap m nm m' h
    subst hm'
    rfl
  · obtain ⟨-, -, m1, hrem, -, hm'⟩ := remove_member_handler_ok caller m oldKey m' h
    have h1 := remove_member_ok m m1 oldKey hrem
    subst h1
    subst hm'
    dsimp only [clampThreshold, Multisig.config_updated]
    split_ifs <;> rfl
  · obtain ⟨-, -, hm'⟩ := change_threshold_ok caller m nt m' h
    subst hm'
    rfl
  · obtain ⟨-, -, hm'⟩ := set_time_lock_ok caller m tlk m' h
    subst hm'
    rfl
  · obtain ⟨-, -, hm'⟩ := set_config_authority_ok caller m na m' h
    subst hm'
    rfl

/-- C8 witness: a successful Add Vault on `msOne` keeps the marker at 0,
and a successful Set Time-Lock on `msA` advances it from 10 to 11. -/
theorem c8_witness :
    (Multisig.mk 5 1 0 1 [⟨1, 7⟩] 0).last_config_change_marker =
      msOne.last_config_change_marker ∧
    (Multisig.mk 5 2 60 3 [⟨1, 7⟩, ⟨2, 7⟩, ⟨3, 7⟩] 11).last_config_change_marker =
      msA.last_config_change_marker + 1 :=
  ⟨(c8_marker_frame msOne (Multisig.mk 5 1 0 1 [⟨1, 7⟩] 0)
      5 0 0 0 0 1 0 true none ⟨0, 0⟩).1 rfl,
   (c8_marker_frame msA (Multisig.mk 5 2 60 3 [⟨1, 7⟩, ⟨2, 7⟩, ⟨3, 7⟩] 11)
      5 0 0 60 0 0 0 true none ⟨0, 0⟩).2.2.2.2.1 rfl⟩

/-- C9: each global-configuration setter fails `Unauthorized` for a caller
different from the current authority, and for the authority it succeeds
unconditionally, overwriting exactly the respective field. -/
theorem c9_program_config_authority_gate
    (pc : ProgramConfigState) (caller a f t : Nat) :
    (caller ≠ pc.authority →
      program_config_set_authority pc caller a = .error .Unauthorized ∧
      program_config_set_multisig_creation_fee pc caller f =
        .error .Unauthorized ∧
      program_config_set_treasury pc caller t = .error .Unauthorized) ∧
    (caller = pc.authority →
      program_config_set_authority pc caller a = .ok { pc with authority := a } ∧
      program_config_set_multisig_creation_fee pc caller f =
        .ok { pc with multisig_creation_fee := f } ∧
      program_config_set_treasury pc caller t =
        .ok { pc with treasury := t }) := by
  constructor
  · intro h
    have hne : ¬ (pc.authority = caller) := fun hh => h hh.symm
    have hv : ProgramConfig.validate pc caller = .error .Unauthorized := by
      simp [ProgramConfig.validate, hne]
    exact ⟨by simp [program_config_set_authority, hv],
      by simp [program_config_set_multisig_creation_fee, hv],
      by simp [program_config_set_treasury, hv]⟩
  · intro h
    have hv : ProgramConfig.validate pc caller = .ok () := by
      simp [ProgramConfig.validate, h]
    exact ⟨by simp [program_config_set_authority, hv],
      by simp [program_config_set_multisig_creation_fee, hv],
      by simp [program_config_set_treasury, hv]⟩

/-- C9 witness: on the global record with authority 1, caller 3 is
rejected on Set Treasury and caller 1 updates the treasury. -/
theorem c9_witness :
    program_config_set_treasury ⟨1, 0, 2⟩ 3 9 = .error .Unauthorized ∧
    program_config_set_treasury ⟨1, 0, 2⟩ 1 9 =
      .ok (ProgramConfigState.mk 1 0 9) :=
  ⟨((c9_program_config_authority_gate ⟨1, 0, 2⟩ 3 0 0 9).1 (by decide)).2.2,
   ((c9_program_config_authority_gate ⟨1, 0, 2⟩ 1 0 0 9).2 rfl).2.2⟩

/-- C10: at `vault_index = 255` the unchecked 8-bit increment wraps: under
wraparound semantics the only accepted argument is 0, which sets the index
to 0 and strictly decreases the counter (breaking monotonic non-decrease);
under checked (trapping) semantics no argument lets the operation complete
normally. -/
theorem c10_vault_index_overflow (m : Multisig) (caller v : Nat)
    (h255 : m.vault_index = 255) (hAuth : caller = m.config_authority) :
    (∀ m', multisig_add_vault caller m v = .ok m' →
      v = 0 ∧ m'.vault_index = 0 ∧ m'.vault_index < m.vault_index) ∧
    (m.invariant = .ok () →
      multisig_add_vault caller m 0 = .ok { m with vault_index := 0 }) ∧
    multisig_add_vault_checked caller m v = none := by
  have hvalid : MultisigConfig.validate caller m = .ok () := by
    simp [MultisigConfig.validate, hAuth]
  refine ⟨?_, ?_, ?_⟩
  · intro m' h
    obtain ⟨-, hv, -, hm'⟩ := add_vault_ok caller m v m' h
    subst hm'
    rw [h255] at hv
    norm_num at hv
    subst hv
    exact ⟨rfl, rfl, by show (0 : Nat) < m.vault_index; omega⟩
  · intro hWf
    simp [multisig_add_vault, hvalid, h255, invariant_vault_index, hWf]
  · simp [multisig_add_vault_checked, hvalid, checkedAddU8, h255]

/-- C10 witness: on `ms255` the wrapped argument 0 succeeds and resets the
index to 0, and the checked variant completes for no argument (77 shown). -/
theorem c10_witness :
    multisig_add_vault 5 ms255 0 = .ok (Multisig.mk 5 1 0 0 [⟨1, 7⟩] 0) ∧
    multisig_add_vault_checked 5 ms255 77 = none :=
  ⟨(c10_vault_index_overflow ms255 5 77 rfl rfl).2.1 rfl,
   (c10_vault_index_overflow ms255 5 77 rfl rfl).2.2⟩
